import Mathlib

/-!
Shallow embedding of the count-reconciliation logic of SocialConnect:
the query helpers of src/lib/countUtils.ts and the per-post-card state
logic of src/components/PostCard.tsx (syncCounts, handleLike, the
real-time subscription effect and its cleanup), together with the
backend tables they touch.
-/

namespace SocialConnect

/-- A row of the `likes` table: a (user, post) pair. -/
structure LikeRow where
  user_id : String
  post_id : String
deriving DecidableEq, Repr

/-- A row of the `comments` table, restricted to the fields the count
queries inspect. -/
structure CommentRow where
  author_id : String
  post_id : String
  is_active : Bool
deriving DecidableEq, Repr

/-- A row of the `posts` table, restricted to the fields the reconciler
touches (`like_count` and `comment_count` are the redundant cached
counts). -/
structure PostRow where
  id : String
  like_count : Int
  comment_count : Int
deriving DecidableEq, Repr

/-- Backend database state for the three tables the reconciler reads or
writes. -/
structure DB where
  posts : List PostRow
  likes : List LikeRow
  comments : List CommentRow
deriving DecidableEq, Repr

/-- The `PostCounts` interface of countUtils.ts. Counts returned by the
backend count queries are non-negative, hence `Nat`. -/
structure PostCounts where
  likeCount : Nat
  commentCount : Nat
deriving DecidableEq, Repr

/-- The likes count query of `getPostCounts`:
`supabase.from('likes').select('*', count exact).eq('post_id', postId)`.
It counts every like row whose `post_id` matches; there is no activity
filter on likes. -/
def likesCountQuery (db : DB) (postId : String) : Nat :=
  (db.likes.filter (fun r => r.post_id == postId)).length

/-- The comments count query of `getPostCounts`:
`supabase.from('comments').select(...).eq('post_id', postId).eq('is_active', true)`.
It counts comment rows whose `post_id` matches and whose `is_active`
flag is true. -/
def commentsCountQuery (db : DB) (postId : String) : Nat :=
  (db.comments.filter (fun r => r.post_id == postId && r.is_active)).length

/-- Which failures occur during one `getPostCounts` call: `thrown` is a
thrown exception reaching the catch block; `likeError` / `commentError`
are error results of the two individual queries (in which case the
returned `count` is null and `count || 0` yields 0). -/
structure FetchOutcome where
  thrown : Bool
  likeError : Bool
  commentError : Bool
deriving DecidableEq, Repr

/-- The all-success outcome of a `getPostCounts` call. -/
def FetchOutcome.ok : FetchOutcome :=
  { thrown := false, likeError := false, commentError := false }

/-- `getPostCounts` of countUtils.ts. On a thrown exception the catch
block returns `{ likeCount: 0, commentCount: 0 }`; on an individual
query error that count is null and `likeCount || 0` (resp.
`commentCount || 0`) yields 0; otherwise the two query results are
returned. -/
def getPostCounts (db : DB) (postId : String) (o : FetchOutcome) : PostCounts :=
  if o.thrown then
    { likeCount := 0, commentCount := 0 }
  else
    { likeCount := if o.likeError then 0 else likesCountQuery db postId,
      commentCount := if o.commentError then 0 else commentsCountQuery db postId }

/-- The local state of one mounted PostCard that the like/comment count
logic manipulates: the `isLiked`, `likeCount` and `commentCount`
useState cells. Displayed counts are JavaScript numbers, hence `Int`
(the clamping via `Math.max(0, ...)` is what keeps them non-negative). -/
structure CardState where
  isLiked : Bool
  likeCount : Int
  commentCount : Int
deriving DecidableEq, Repr

/-- Writing a fetched `PostCounts` pair into the displayed state:
`setLikeCount(counts.likeCount); setCommentCount(counts.commentCount)`.
No sequence number, timestamp or staleness guard is consulted. -/
def applyFetch (s : CardState) (c : PostCounts) : CardState :=
  { s with likeCount := (c.likeCount : Int), commentCount := (c.commentCount : Int) }

/-- `syncCounts` of PostCard.tsx: fetch the authoritative counts with
`getPostCounts` and write whatever pair it returns into the displayed
state. (`getPostCounts` itself never throws, so the surrounding
try/catch of `syncCounts` never skips the writes.) -/
def syncCounts (s : CardState) (db : DB) (postId : String) (o : FetchOutcome) : CardState :=
  applyFetch s (getPostCounts db postId o)

/-- The catch block of `handleLike`:
`setIsLiked(!isLiked); setLikeCount(prev => isLiked ? prev + 1 : Math.max(0, prev - 1))`,
where `isLiked` is the pre-action value captured by the closure. -/
def likeErrorRevert (s : CardState) : CardState :=
  { s with
    isLiked := !s.isLiked,
    likeCount := if s.isLiked then s.likeCount + 1 else max 0 (s.likeCount - 1) }

/-- The `likes` table after
`supabase.from('likes').delete().eq('user_id', userId).eq('post_id', postId)`. -/
def deleteLike (db : DB) (userId postId : String) : DB :=
  { db with likes := db.likes.filter (fun r => !(r.user_id == userId && r.post_id == postId)) }

/-- The `likes` table after
`supabase.from('likes').insert({ user_id: userId, post_id: postId })`. -/
def insertLike (db : DB) (userId postId : String) : DB :=
  { db with likes := { user_id := userId, post_id := postId } :: db.likes }

/-- `handleLike` of PostCard.tsx, run to completion. `writeOk` says
whether the confirming backend write (the likes delete on the unlike
path, the likes insert on the like path) succeeds; `syncO` is the
outcome of the `getPostCounts` call made by the trailing `syncCounts`.
Note the code performs the backend write FIRST and only then updates the
local state; on a write error it throws before any local update, yet the
catch block still applies `likeErrorRevert`. -/
def handleLike (s : CardState) (db : DB) (userId postId : String)
    (writeOk : Bool) (syncO : FetchOutcome) : CardState × DB :=
  if s.isLiked then
    if writeOk then
      let db' := deleteLike db userId postId
      let s' := { s with isLiked := false, likeCount := max 0 (s.likeCount - 1) }
      (syncCounts s' db' postId syncO, db')
    else
      (likeErrorRevert s, db)
  else
    if writeOk then
      let db' := insertLike db userId postId
      let s' := { s with isLiked := true, likeCount := s.likeCount + 1 }
      (syncCounts s' db' postId syncO, db')
    else
      (likeErrorRevert s, db)

/-- A finite sequence of like/unlike button presses on one card, each
running `handleLike` to completion before the next begins. Whether a
press is a like or an unlike is determined by the current `isLiked`
state, exactly as in the code. The list carries, per press, the success
of the confirming write and the outcome of the trailing sync fetch. -/
def runActions (userId postId : String) :
    CardState × DB → List (Bool × FetchOutcome) → CardState × DB
  | sd, [] => sd
  | (s, db), (w, o) :: rest =>
      runActions userId postId (handleLike s db userId postId w o) rest

/-- The initial value of the `likeCount` useState cell:
`post.like_count || 0` (a null or zero stored count yields 0, any other
stored number is used as-is). -/
def initLikeCount (stored : Option Int) : Int :=
  match stored with
  | none => 0
  | some v => if v = 0 then 0 else v

/-- `updatePostCounts` of countUtils.ts: re-fetch the authoritative
counts and WRITE them into the `like_count` / `comment_count` columns of
the matching `posts` row
(`supabase.from('posts').update({ like_count, comment_count }).eq('id', postId)`).
`updateOk` says whether that update statement succeeds. -/
def updatePostCounts (db : DB) (postId : String) (o : FetchOutcome)
    (updateOk : Bool) : PostCounts × DB :=
  let counts := getPostCounts db postId o
  let db' :=
    if updateOk then
      { db with posts := db.posts.map (fun p =>
          if p.id == postId then
            { p with like_count := (counts.likeCount : Int),
                     comment_count := (counts.commentCount : Int) }
          else p) }
    else db
  (counts, db')

/-- The kind of a postgres change event delivered on the real-time
channel. -/
inductive EventKind
  | insert
  | update
  | delete
deriving DecidableEq, Repr

/-- A postgres change event: the table it concerns and the `post_id` of
the affected row (the field the channel filters test). -/
structure ChangeEvent where
  table : String
  kind : EventKind
  row_post_id : String
deriving DecidableEq, Repr

/-- Dispatch of one change event through the channel opened by
`subscribeToCountChanges postId`: the channel has one handler on the
`likes` table and one on the `comments` table, both with `event: '*'`
(all kinds) and filter `post_id=eq.postId`; a matching handler runs
`getPostCounts` afresh and passes the result to `onCountChange`. The
result is the argument `onCountChange` is invoked with, or `none` when
no handler fires. -/
def subscriptionDispatch (postId : String) (db : DB) (e : ChangeEvent)
    (o : FetchOutcome) : Option PostCounts :=
  if (e.table == "likes" && e.row_post_id == postId) ||
     (e.table == "comments" && e.row_post_id == postId) then
    some (getPostCounts db postId o)
  else
    none

/-- The lifecycle-aware view of one post card: its displayed state plus
whether its real-time channel is still registered. -/
structure CardLife where
  state : CardState
  subscribed : Bool
deriving DecidableEq, Repr

/-- The cleanup of the subscription effect:
`supabase.removeChannel(subscription)`. -/
def teardown (l : CardLife) : CardLife :=
  { l with subscribed := false }

/-- Delivery of a change event to the card: the handlers only run while
the channel is registered; a matching event re-fetches the counts and
the `onCountChange` callback installed by PostCard writes them into the
displayed state. -/
def deliverEvent (postId : String) (db : DB) (l : CardLife) (e : ChangeEvent)
    (o : FetchOutcome) : CardLife :=
  if l.subscribed then
    match subscriptionDispatch postId db e o with
    | some c => { l with state := applyFetch l.state c }
    | none => l
  else
    l

/-- Completion of a count fetch that was still in flight: `syncCounts`
resumes and writes the fetched pair into the state cells unconditionally;
PostCard keeps no liveness flag, so nothing is checked at this point. -/
def completeFetch (l : CardLife) (c : PostCounts) : CardLife :=
  { l with state := applyFetch l.state c }

/-! Theorems -/

/-- C5: for every database state and postId, `getPostCounts` (with both
queries succeeding) returns the pair whose like-count is the number of
like rows with `post_id = postId` (no activity filter) and whose
comment-count is the number of comment rows with `post_id = postId` and
`is_active = true`. -/
theorem c5_getPostCounts_pair (db : DB) (postId : String) :
    getPostCounts db postId FetchOutcome.ok =
      { likeCount := db.likes.countP (fun r => r.post_id == postId),
        commentCount :=
          db.comments.countP (fun r => r.post_id == postId && r.is_active) } := by
  simp [getPostCounts, FetchOutcome.ok, likesCountQuery, commentsCountQuery,
    List.countP_eq_length_filter]

/-- C1 counterexample: with displayed counts likeCount = 3 and
commentCount = 5, a count fetch that fails with a thrown error makes
`syncCounts` write 0 over both displayed values — the prior values are
not retained. -/
theorem c1_failure_zeroes_display :
    (syncCounts { isLiked := false, likeCount := 3, commentCount := 5 }
        { posts := [], likes := [], comments := [] } "p1"
        { thrown := true, likeError := false, commentError := false }).likeCount = 0 ∧
    (syncCounts { isLiked := false, likeCount := 3, commentCount := 5 }
        { posts := [], likes := [], comments := [] } "p1"
        { thrown := true, likeError := false, commentError := false }).commentCount = 0 ∧
    (3 : Int) ≠ 0 ∧ (5 : Int) ≠ 0 := by
  refine ⟨rfl, rfl, by decide, by decide⟩

/-- C1 amended: when the count fetch throws, or the like-count query
returns an error, the displayed like-count after `syncCounts` is 0
(reset, not retained); symmetrically for a thrown error the displayed
comment-count is 0 as well. -/
theorem c1_amended_reset_to_zero (s : CardState) (db : DB) (postId : String)
    (o : FetchOutcome) (h : o.thrown = true ∨ o.likeError = true) :
    (syncCounts s db postId o).likeCount = 0 ∧
      (o.thrown = true → (syncCounts s db postId o).commentCount = 0) := by
  obtain ⟨t, le, ce⟩ := o
  rcases h with h | h
  · cases h
    simp [syncCounts, applyFetch, getPostCounts]
  · cases h
    cases t <;> simp [syncCounts, applyFetch, getPostCounts]

/-- C1 amended, evaluated at a concrete input: a thrown fetch over the
displayed pair (3, 5) resets the displayed like-count to 0. -/
theorem c1_amended_reset_to_zero_witness :
    (syncCounts { isLiked := false, likeCount := 3, commentCount := 5 }
        { posts := [], likes := [], comments := [] } "p1"
        { thrown := true, likeError := false, commentError := false }).likeCount = 0 :=
  (c1_amended_reset_to_zero _ _ _ _ (Or.inl rfl)).1

/-- C2: evaluation at the failing input. The card shows likeCount = 3
(matching three like rows by other users) and isLiked = false; the user
presses like and the confirming insert fails. The code throws before
applying any optimistic delta, yet the catch block still decrements:
the displayed like-count becomes 2, not the pre-action value 3, and
isLiked flips to true although no row was written. -/
theorem c2_failed_write_corrupts_count :
    ((handleLike { isLiked := false, likeCount := 3, commentCount := 0 }
        { posts := [],
          likes := [{ user_id := "u2", post_id := "p1" },
            { user_id := "u3", post_id := "p1" },
            { user_id := "u4", post_id := "p1" }],
          comments := [] } "u1" "p1" false FetchOutcome.ok).1.likeCount = 2) ∧
    ((handleLike { isLiked := false, likeCount := 3, commentCount := 0 }
        { posts := [],
          likes := [{ user_id := "u2", post_id := "p1" },
            { user_id := "u3", post_id := "p1" },
            { user_id := "u4", post_id := "p1" }],
          comments := [] } "u1" "p1" false FetchOutcome.ok).1.isLiked = true) ∧
    ((handleLike { isLiked := false, likeCount := 3, commentCount := 0 }
        { posts := [],
          likes := [{ user_id := "u2", post_id := "p1" },
            { user_id := "u3", post_id := "p1" },
            { user_id := "u4", post_id := "p1" }],
          comments := [] } "u1" "p1" false FetchOutcome.ok).2.likes.length = 3) ∧
    (2 : Int) ≠ 3 := by
  refine ⟨rfl, rfl, rfl, by decide⟩

/-- Helper: a fully successful `handleLike` ends with its trailing
`syncCounts`, so the displayed like-count it leaves equals the
like-row count of the database it leaves. -/
theorem handleLike_ok_displays_row_count (s : CardState) (db : DB) (u p : String) :
    (handleLike s db u p true FetchOutcome.ok).1.likeCount =
      ((likesCountQuery (handleLike s db u p true FetchOutcome.ok).2 p : Int)) := by
  cases hs : s.isLiked <;>
    simp [handleLike, hs, syncCounts, applyFetch, getPostCounts, FetchOutcome.ok]

/-- C3 counterexample: a sequence consisting of one like action whose
confirming write fails. The card starts consistent (displayed
like-count 1, one like row by another user); after the action completes
the system is idle, the database still holds 1 like row, but the
displayed like-count is 0. -/
theorem c3_failed_action_breaks_convergence :
    ((runActions "u1" "p1"
        ({ isLiked := false, likeCount := 1, commentCount := 0 },
          { posts := [], likes := [{ user_id := "u2", post_id := "p1" }], comments := [] })
        [(false, FetchOutcome.ok)]).1.likeCount = 0) ∧
    (likesCountQuery
        (runActions "u1" "p1"
          ({ isLiked := false, likeCount := 1, commentCount := 0 },
            { posts := [], likes := [{ user_id := "u2", post_id := "p1" }], comments := [] })
          [(false, FetchOutcome.ok)]).2 "p1" = 1) ∧
    (0 : Int) ≠ (1 : Nat) := by
  refine ⟨rfl, rfl, by decide⟩

/-- C3 amended: starting from a card whose displayed like-count matches
the backend like-row count (as after the mount `syncCounts`), any finite
sequence of sequentially executed like/unlike actions whose confirming
writes and trailing count fetches all succeed leaves, once idle, the
displayed like-count equal to the number of like rows for the post. -/
theorem c3_amended_convergence (u p : String) (acts : List (Bool × FetchOutcome))
    (hacts : ∀ a ∈ acts, a = (true, FetchOutcome.ok))
    (s : CardState) (db : DB)
    (hsync : s.likeCount = (likesCountQuery db p : Int)) :
    (runActions u p (s, db) acts).1.likeCount =
      ((likesCountQuery (runActions u p (s, db) acts).2 p : Int)) := by
  induction acts generalizing s db with
  | nil => simpa [runActions] using hsync
  | cons a rest ih =>
      obtain ⟨w, o⟩ := a
      have ha : (w, o) = (true, FetchOutcome.ok) := hacts _ (List.mem_cons_self _ _)
      obtain ⟨hw, ho⟩ := Prod.mk.injEq .. ▸ ha
      subst hw; subst ho
      have hrest : ∀ b ∈ rest, b = (true, FetchOutcome.ok) :=
        fun b hb => hacts b (List.mem_cons_of_mem _ hb)
      have hstep := handleLike_ok_displays_row_count s db u p
      rcases hh : handleLike s db u p true FetchOutcome.ok with ⟨s', db'⟩
      rw [hh] at hstep
      simpa [runActions, hh] using ih hrest s' db' hstep

/-- C3 amended, evaluated at a concrete input: from a consistent card
(displayed 1, one like row by another user), a successful like followed
by a successful unlike leaves displayed like-count 1, equal to the one
remaining like row. -/
theorem c3_amended_convergence_witness :
    (runActions "u1" "p1"
        ({ isLiked := false, likeCount := 1, commentCount := 0 },
          { posts := [], likes := [{ user_id := "u2", post_id := "p1" }], comments := [] })
        [(true, FetchOutcome.ok), (true, FetchOutcome.ok)]).1.likeCount =
      ((likesCountQuery
          (runActions "u1" "p1"
            ({ isLiked := false, likeCount := 1, commentCount := 0 },
              { posts := [], likes := [{ user_id := "u2", post_id := "p1" }], comments := [] })
            [(true, FetchOutcome.ok), (true, FetchOutcome.ok)]).2 "p1" : Int)) :=
  c3_amended_convergence "u1" "p1" _ (by decide) _ _ (by decide)

/-- C4 counterexample: `updatePostCounts` DOES write the cached count
fields: on a database whose `posts` row for p1 stores like_count = 0
while one like row exists, it rewrites the row to like_count = 1. -/
theorem c4_updatePostCounts_writes :
    ((updatePostCounts
        { posts := [{ id := "p1", like_count := 0, comment_count := 0 }],
          likes := [{ user_id := "u1", post_id := "p1" }], comments := [] }
        "p1" FetchOutcome.ok true).2.posts =
      [{ id := "p1", like_count := 1, comment_count := 0 }]) ∧
    ([{ id := "p1", like_count := 1, comment_count := 0 }] ≠
      [({ id := "p1", like_count := 0, comment_count := 0 } : PostRow)]) := by
  refine ⟨rfl, by decide⟩

/-- C4 amended: the reconciliation path the post card actually runs
(`handleLike` with its trailing `syncCounts`; `getPostCounts` and the
subscription handler read and return counts without producing a new
database) never writes the `posts` table, so it never touches the cached
`like_count` / `comment_count` fields; but countUtils also defines
`updatePostCounts`, which does write them when invoked. -/
theorem c4_card_path_never_writes_posts :
    (∀ (s : CardState) (db : DB) (u p : String) (w : Bool) (o : FetchOutcome),
      (handleLike s db u p w o).2.posts = db.posts) ∧
    (∃ (db : DB) (p : String),
      (updatePostCounts db p FetchOutcome.ok true).2.posts ≠ db.posts) := by
  constructor
  · intro s db u p w o
    cases hs : s.isLiked <;> cases w <;>
      simp [handleLike, hs, deleteLike, insertLike, syncCounts]
  · refine ⟨{ posts := [{ id := "p1", like_count := 0, comment_count := 0 }],
              likes := [{ user_id := "u1", post_id := "p1" }],
              comments := [] }, "p1", ?_⟩
    decide

/-- C6: any insert or delete event on the likes or comments table whose
row references the subscribed post fires the channel handler, which
re-runs `getPostCounts` and invokes the callback with exactly the
freshly fetched pair. -/
theorem c6_event_triggers_refetch (p : String) (db : DB) (e : ChangeEvent)
    (o : FetchOutcome)
    (htable : e.table = "likes" ∨ e.table = "comments")
    (_hkind : e.kind = EventKind.insert ∨ e.kind = EventKind.delete)
    (hrow : e.row_post_id = p) :
    subscriptionDispatch p db e o = some (getPostCounts db p o) := by
  rcases htable with h | h <;> simp [subscriptionDispatch, h, hrow]

/-- C6, evaluated at a concrete input: an insert on the likes table for
post p1 dispatches the freshly fetched pair to the callback. -/
theorem c6_event_triggers_refetch_witness :
    subscriptionDispatch "p1"
        { posts := [], likes := [{ user_id := "u1", post_id := "p1" }], comments := [] }
        { table := "likes", kind := EventKind.insert, row_post_id := "p1" }
        FetchOutcome.ok =
      some (getPostCounts
        { posts := [], likes := [{ user_id := "u1", post_id := "p1" }], comments := [] }
        "p1" FetchOutcome.ok) :=
  c6_event_triggers_refetch _ _ _ _ (Or.inl rfl) (Or.inl rfl) rfl

/-- C7 counterexample: a card displaying likeCount = 3 is torn down
while a count fetch is in flight; when the response (5, 2) completes,
`syncCounts` writes it into the state cells anyway — the stored
like-count becomes 5, so the in-flight response was written into
disposed state, not discarded. -/
theorem c7_inflight_fetch_after_teardown :
    ((completeFetch
        (teardown { state := { isLiked := false, likeCount := 3, commentCount := 0 },
                    subscribed := true })
        { likeCount := 5, commentCount := 2 }).state.likeCount = 5) ∧
    ((completeFetch
        (teardown { state := { isLiked := false, likeCount := 3, commentCount := 0 },
                    subscribed := true })
        { likeCount := 5, commentCount := 2 }).subscribed = false) ∧
    (5 : Int) ≠ 3 := by
  refine ⟨rfl, rfl, by decide⟩

/-- C7 amended: after teardown removes the channel, no subscription
event causes any further update (delivery is a no-op on an unsubscribed
card); but an in-flight count-fetch response is not discarded — there is
no liveness flag, and its completion writes the fetched pair into the
card's state cells unconditionally. -/
theorem c7_amended_teardown :
    (∀ (p : String) (db : DB) (l : CardLife) (e : ChangeEvent) (o : FetchOutcome),
      deliverEvent p db (teardown l) e o = teardown l) ∧
    (∀ (l : CardLife) (c : PostCounts),
      (completeFetch l c).state = applyFetch l.state c) := by
  constructor
  · intro p db l e o
    simp [deliverEvent, teardown]
  · intro l c
    rfl

/-- C8: repeated reconciliation over a fixed backend state is
idempotent: running `syncCounts` any positive number of times leaves the
same displayed pair as running it once (every run fetches and writes the
same pair, so completion order is immaterial). -/
theorem c8_reconciliation_idempotent (s : CardState) (db : DB) (p : String) (n : Nat) :
    (fun t => syncCounts t db p FetchOutcome.ok)^[n + 1] s =
      syncCounts s db p FetchOutcome.ok := by
  induction n with
  | zero => rfl
  | succ k ih =>
      rw [Function.iterate_succ_apply', ih]
      rfl

/-- C9: there is an interleaving of two concurrent count fetches for the
same post — the first issued against the older database state, the
second against the newer one — in which the staler response arrives last
and, since `applyFetch` consults no sequence number or timestamp, simply
overwrites the fresher displayed counts. -/
theorem c9_stale_response_overwrites :
    ∃ (s : CardState) (db0 db1 : DB) (p : String),
      likesCountQuery db0 p ≠ likesCountQuery db1 p ∧
      applyFetch (applyFetch s (getPostCounts db1 p FetchOutcome.ok))
          (getPostCounts db0 p FetchOutcome.ok) =
        applyFetch s (getPostCounts db0 p FetchOutcome.ok) ∧
      (applyFetch (applyFetch s (getPostCounts db1 p FetchOutcome.ok))
          (getPostCounts db0 p FetchOutcome.ok)).likeCount ≠
        ((likesCountQuery db1 p : Int)) := by
  refine ⟨{ isLiked := false, likeCount := 0, commentCount := 0 },
    { posts := [], likes := [], comments := [] },
    { posts := [], likes := [{ user_id := "u1", post_id := "p1" }], comments := [] },
    "p1", ?_, ?_, ?_⟩ <;> decide

/-- C10: the displayed like-count is never negative: the initial value
(`post.like_count || 0`, for a non-negative or absent stored count) is
non-negative, every complete `handleLike` run (optimistic increment,
clamped optimistic decrement, clamped error revert) preserves
non-negativity, and every `syncCounts` write installs a backend count,
which is non-negative. -/
theorem c10_likeCount_nonneg :
    (∀ v : Int, 0 ≤ v → 0 ≤ initLikeCount (some v)) ∧
    (0 ≤ initLikeCount none) ∧
    (∀ (s : CardState) (db : DB) (u p : String) (w : Bool) (o : FetchOutcome),
      0 ≤ s.likeCount → 0 ≤ (handleLike s db u p w o).1.likeCount) ∧
    (∀ (s : CardState) (db : DB) (p : String) (o : FetchOutcome),
      0 ≤ (syncCounts s db p o).likeCount) := by
  have hsync : ∀ (s : CardState) (db : DB) (p : String) (o : FetchOutcome),
      0 ≤ (syncCounts s db p o).likeCount := by
    intro s db p o
    simp only [syncCounts, applyFetch]
    exact Int.natCast_nonneg _
  refine ⟨?_, ?_, ?_, hsync⟩
  · intro v hv
    simp only [initLikeCount]
    split <;> omega
  · simp [initLikeCount]
  · intro s db u p w o h
    cases hs : s.isLiked <;> cases w <;>
      simp only [handleLike, hs, Bool.false_eq_true, if_true, if_false,
        likeErrorRevert]
    · exact le_max_left 0 _
    · exact hsync _ _ _ _
    · omega
    · exact hsync _ _ _ _

/-- C10, evaluated at a concrete input: from displayed like-count 0, a
failed-write unlike-free like press leaves a non-negative displayed
like-count. -/
theorem c10_likeCount_nonneg_witness :
    0 ≤ (handleLike { isLiked := false, likeCount := 0, commentCount := 0 }
        { posts := [], likes := [], comments := [] } "u1" "p1" false
        FetchOutcome.ok).1.likeCount :=
  c10_likeCount_nonneg.2.2.1 _ _ _ _ _ _ (by decide)

end SocialConnect
